import Mathlib

/-!
Verification development for the compute-shader orchestration core of
jarllarsson/bevy_playground_2.

The embedding follows src/main.rs (the canonical revision of the design;
src/compute.rs is a near-duplicate earlier revision whose readiness state
machine, dispatch arithmetic and registration logic coincide with main.rs
in every respect the theorems below touch).

Modelling conventions:
- Opaque GPU handles (compiled pipelines, texture views, buffer bindings,
  shader assets, entities) are represented by natural numbers.
- The external pipeline-cache collaborator is represented by the list of
  compile requests queued so far; `queue_compute_pipeline` appends a request
  and hands back its index as the opaque pipeline id, mirroring bevy's
  `PipelineCache::queue_compute_pipeline`.
- Bevy's `World::resource::<T>()` panics when the resource is absent; the
  run step therefore takes the `MyComputeShaderBindGroup` resource as an
  `Option` and reports a dedicated panic outcome when it is `none`.
- Per-frame polling of compile status is a `FramePoll` value: the pair of
  `CachedPipelineState`s the cache reports for the init and the update
  pipeline that frame.
-/

set_option autoImplicit false

namespace BevyPlayground

/-- Constant `SIZE` from main.rs line 27: total compute threads (width, height)
of the fixed 640 x 480 render target. -/
def SIZE : Nat × Nat := (640, 480)

/-- Constant `WORKGROUP_SIZE` from main.rs line 29: threads per group per axis. -/
def WORKGROUP_SIZE : Nat := 8

/-- Compile status of a cached pipeline, mirroring bevy's `CachedPipelineState`:
`Queued` (still compiling), `Ok` carrying the compiled pipeline (an opaque
handle), or `Err`. -/
inductive CachedPipelineState where
  | Queued : CachedPipelineState
  | Ok : Nat → CachedPipelineState
  | Err : CachedPipelineState
deriving DecidableEq

/-- Test for the `Ok` compile status. -/
def CachedPipelineState.isOk : CachedPipelineState → Bool
  | .Ok _ => true
  | _ => false

/-- Function `PipelineCache::get_compute_pipeline`: yields the compiled pipeline
exactly when the cached status is `Ok`; bevy returns `None` otherwise. -/
def get_compute_pipeline : CachedPipelineState → Option Nat
  | .Ok p => some p
  | _ => none

/-- Shader stage visibility used by the layout entries (main.rs lines 312, 323:
always `ShaderStages::COMPUTE`). -/
inductive ShaderStages where
  | COMPUTE : ShaderStages
deriving DecidableEq

/-- Buffer binding kind used by the layout (main.rs line 314: `Uniform`). -/
inductive BufferBindingType where
  | Uniform : BufferBindingType
deriving DecidableEq

/-- Storage texture access mode (main.rs line 325: `ReadWrite`). -/
inductive StorageTextureAccess where
  | ReadWrite : StorageTextureAccess
deriving DecidableEq

/-- Texture formats appearing in the source (main.rs line 326). -/
inductive TextureFormat where
  | Rgba8Unorm : TextureFormat
deriving DecidableEq

/-- Texture view dimension (main.rs line 327: `D2`). -/
inductive TextureViewDimension where
  | D2 : TextureViewDimension
deriving DecidableEq

/-- Marker for the opaque byte size `ViewUniform::min_size()` (main.rs
line 316). -/
inductive MinBindingSize where
  | viewUniformMinSize : MinBindingSize
deriving DecidableEq

/-- Binding type of a layout slot: a uniform buffer (with dynamic-offset flag
and minimum binding size) or a read-write 2-D storage texture, as in main.rs
lines 313-318 and 324-328. -/
inductive BindingType where
  | Buffer : BufferBindingType → Bool → Option MinBindingSize → BindingType
  | StorageTexture : StorageTextureAccess → TextureFormat → TextureViewDimension → BindingType
deriving DecidableEq

/-- Structure `BindGroupLayoutEntry` (main.rs lines 310-330); the source always
sets `count: None`, which is elided here. -/
structure BindGroupLayoutEntry where
  binding : Nat
  visibility : ShaderStages
  ty : BindingType
deriving DecidableEq

/-- Structure `BindGroupLayoutDescriptor` (main.rs lines 336-339). -/
structure BindGroupLayoutDescriptor where
  label : String
  entries : List BindGroupLayoutEntry
deriving DecidableEq

/-- Local `view_layout` of `MyComputeShaderPipeline::from_world` (main.rs
lines 310-319): binding 0, compute-visible, dynamic-offset uniform buffer
sized by `ViewUniform::min_size()`. -/
def view_layout : BindGroupLayoutEntry :=
  { binding := 0
    visibility := .COMPUTE
    ty := .Buffer .Uniform true (some .viewUniformMinSize) }

/-- Local `texture_layout` of `MyComputeShaderPipeline::from_world` (main.rs
lines 321-330): binding 1, compute-visible, read-write 2-D `Rgba8Unorm`
storage texture. -/
def texture_layout : BindGroupLayoutEntry :=
  { binding := 1
    visibility := .COMPUTE
    ty := .StorageTexture .ReadWrite .Rgba8Unorm .D2 }

/-- Local `bind_group_layout` of `MyComputeShaderPipeline::from_world`
(main.rs lines 333-339): the single binding layout, declared once with the
two entries above. -/
def bind_group_layout : BindGroupLayoutDescriptor :=
  { label := "my_rendertexture_bindgroup_layout"
    entries := [view_layout, texture_layout] }

/-- Structure `ComputePipelineDescriptor` as filled in by the source (main.rs
lines 346-361). -/
structure ComputePipelineDescriptor where
  label : Option String
  layout : List BindGroupLayoutDescriptor
  push_constant_ranges : List Nat
  shader : Nat
  shader_defs : List String
  entry_point : String
deriving DecidableEq

/-- Pipeline-cache collaborator, represented by the compile requests queued so
far, in submission order. -/
structure PipelineCache where
  queued : List ComputePipelineDescriptor
deriving DecidableEq

/-- Method `PipelineCache::queue_compute_pipeline`: records the request and
immediately returns an opaque id (the request's index); compilation proceeds
out of band and never fails synchronously. -/
def PipelineCache.queue_compute_pipeline (c : PipelineCache)
    (d : ComputePipelineDescriptor) : Nat × PipelineCache :=
  (c.queued.length, { queued := c.queued ++ [d] })

/-- Descriptor of the first compile request of from_world (main.rs
lines 346-353): entry point "init", the shared layout, the shared shader. -/
def init_pipeline_descriptor (shader : Nat) : ComputePipelineDescriptor :=
  { label := some "my_compute_pipeline_init"
    layout := [bind_group_layout]
    push_constant_ranges := []
    shader := shader
    shader_defs := []
    entry_point := "init" }

/-- Descriptor of the second compile request of from_world (main.rs
lines 354-361): entry point "update", the same layout and shader. -/
def update_pipeline_descriptor (shader : Nat) : ComputePipelineDescriptor :=
  { label := some "my_compute_pipeline_update"
    layout := [bind_group_layout]
    push_constant_ranges := []
    shader := shader
    shader_defs := []
    entry_point := "update" }

/-- Structure `MyComputeShaderPipeline` (main.rs lines 277-282). -/
structure MyComputeShaderPipeline where
  texture_bind_group_layout : BindGroupLayoutDescriptor
  init_pipeline_id : Nat
  update_pipeline_id : Nat
deriving DecidableEq

/-- Function `MyComputeShaderPipeline::from_world` (main.rs lines 294-369):
declares the binding layout, then queues the two compile requests against the
pipeline cache (first "init", then "update"), and returns the pipeline
resource holding the layout and the two opaque ids. `shader` is the opaque
handle returned by the asset server for my_compute_shader.wgsl. -/
def MyComputeShaderPipeline.from_world (cache : PipelineCache) (shader : Nat) :
    MyComputeShaderPipeline × PipelineCache :=
  let r1 := cache.queue_compute_pipeline (init_pipeline_descriptor shader)
  let r2 := r1.2.queue_compute_pipeline (update_pipeline_descriptor shader)
  ({ texture_bind_group_layout := bind_group_layout
     init_pipeline_id := r1.1
     update_pipeline_id := r2.1 }, r2.2)

/-- Concrete binding resource, mirroring bevy's `BindingResource`: the view
uniform buffer binding returned by `view_uniforms.uniforms.binding()`, or the
render target's GPU texture view. -/
inductive BindingResource where
  | Buffer : Nat → BindingResource
  | TextureView : Nat → BindingResource
deriving DecidableEq

/-- Structure `BindGroupEntry` (main.rs lines 250-258). -/
structure BindGroupEntry where
  binding : Nat
  resource : BindingResource
deriving DecidableEq

/-- Bound resource set produced by `device.create_bind_group` (main.rs
lines 261-265), recording the descriptor it was created from. -/
structure BindGroup where
  label : String
  layout : BindGroupLayoutDescriptor
  entries : List BindGroupEntry
deriving DecidableEq

/-- System `queue_bind_group` (main.rs lines 230-268), modelled at the level of
the `MyComputeShaderBindGroup` resource it maintains. Inputs: the pipeline's
layout, the view uniform binding if `view_uniforms.uniforms.binding()` is
`Some`, the render target's GPU texture view if `gpu_images.get` resolves it,
and the resource's value before the system runs. When both concrete resources
resolve, a fresh bind group (binding 0 -> view binding, binding 1 -> texture
view) is created and `commands.insert_resource` overwrites the resource; when
either is missing the system inserts nothing, so the prior resource value
persists unchanged. -/
def queue_bind_group (layout : BindGroupLayoutDescriptor)
    (view_binding : Option BindingResource) (gpu_image : Option Nat)
    (existing : Option BindGroup) : Option BindGroup :=
  match view_binding, gpu_image with
  | some vb, some tv =>
      some { label := "my_rendertexture_bindgroup"
             layout := layout
             entries := [{ binding := 0, resource := vb },
                         { binding := 1, resource := .TextureView tv }] }
  | _, _ => existing

/-- Enum `MyComputeShaderState` (main.rs lines 380-384). -/
inductive MyComputeShaderState where
  | Loading : MyComputeShaderState
  | Init : MyComputeShaderState
  | Update : MyComputeShaderState
deriving DecidableEq

/-- Compile statuses the pipeline cache reports in one frame for the two
pipelines of the node, i.e. the values of
`pipeline_cache.get_compute_pipeline_state(pipeline.init_pipeline_id)` and
`...(pipeline.update_pipeline_id)` that frame. -/
structure FramePoll where
  init_pipeline_state : CachedPipelineState
  update_pipeline_state : CachedPipelineState
deriving DecidableEq

/-- Method `MyComputeShaderNode::update` (main.rs lines 409-442): the per-frame
step of the readiness state machine. In `Loading` it polls the init pipeline
and moves to `Init` exactly on `Ok`; in `Init` it polls the update pipeline
and moves to `Update` exactly on `Ok`; `Update` never changes. -/
def MyComputeShaderNode.update (s : MyComputeShaderState) (poll : FramePoll) :
    MyComputeShaderState :=
  match s with
  | .Loading =>
      match poll.init_pipeline_state with
      | .Ok _ => .Init
      | _ => .Loading
  | .Init =>
      match poll.update_pipeline_state with
      | .Ok _ => .Update
      | _ => .Init
  | .Update => .Update

/-- GPU commands the run step can record on its compute pass. -/
inductive Cmd where
  | begin_compute_pass : Cmd
  | set_bind_group : BindGroup → List Nat → Cmd
  | set_pipeline : Nat → Cmd
  | dispatch_workgroups : Nat → Nat → Nat → Cmd
deriving DecidableEq

/-- Test for a dispatch command. -/
def Cmd.is_dispatch : Cmd → Bool
  | .dispatch_workgroups _ _ _ => true
  | _ => false

/-- Outcome of one invocation of the run step: normal return, the
`NodeRunError` propagated by `?` on `get_input_entity`, the panic raised by
`world.resource::<MyComputeShaderBindGroup>()` when that resource is absent,
or the panic raised by `.unwrap()` on `get_compute_pipeline`. -/
inductive RunOutcome where
  | ok : RunOutcome
  | nodeRunError : RunOutcome
  | panicMissingBindGroup : RunOutcome
  | panicUnwrapPipeline : RunOutcome
deriving DecidableEq

/-- Result of one invocation of the run step: the commands recorded, and how
the invocation ended. -/
structure RunResult where
  cmds : List Cmd
  outcome : RunOutcome
deriving DecidableEq

/-- Thread-group grid as computed by the dispatch call in
`MyComputeShaderNode::run` (main.rs line 490), generalized over target
dimensions and group size: Rust `u32` division truncates, so each axis is a
flooring division. The source instantiates it at `SIZE` and
`WORKGROUP_SIZE`. -/
def dispatch_grid (w h g : Nat) : Nat × Nat × Nat :=
  (w / g, h / g, 1)

/-- Modelled from the spec: the grid formula the spec claims,
`(ceil(W/g), ceil(H/g), 1)`, written with the usual `(x + g - 1) / g` ceiling
division, for comparison with `dispatch_grid`. -/
def spec_ceil_grid (w h g : Nat) : Nat × Nat × Nat :=
  ((w + g - 1) / g, (h + g - 1) / g, 1)

/-- Method `MyComputeShaderNode::run` (main.rs lines 445-494). Arguments model
the world at the instant the node runs: the result of
`graph.get_input_entity(IN_VIEW)` (`none` models the error case propagated by
`?`); the `MyComputeShaderBindGroup` resource if present (`world.resource`
panics when it is not); the view-offset query `view_query.get_manual` as a
partial function from entities to `ViewUniformOffset` values; and the polled
status of the update pipeline, from which the `Update` arm fetches the
compiled pipeline with `.unwrap()`. The command order mirrors the source:
begin the pass, resolve the view offset (early `Ok` return when
unresolvable), set the bind group with the dynamic offset, then select by
state; only the `Update` arm sets a pipeline and dispatches (the `Init` arm's
dispatch is commented out in the source). -/
def MyComputeShaderNode.run (state : MyComputeShaderState)
    (input_view_entity : Option Nat)
    (bind_group_resource : Option BindGroup)
    (view_query : Nat → Option Nat)
    (update_pipeline_state : CachedPipelineState) : RunResult :=
  match input_view_entity with
  | none => { cmds := [], outcome := .nodeRunError }
  | some view_entity =>
      match bind_group_resource with
      | none => { cmds := [], outcome := .panicMissingBindGroup }
      | some bind_group =>
          match view_query view_entity with
          | none => { cmds := [.begin_compute_pass], outcome := .ok }
          | some view_uniform_offset =>
              let pass : List Cmd :=
                [.begin_compute_pass, .set_bind_group bind_group [view_uniform_offset]]
              match state with
              | .Loading => { cmds := pass, outcome := .ok }
              | .Init => { cmds := pass, outcome := .ok }
              | .Update =>
                  match get_compute_pipeline update_pipeline_state with
                  | none => { cmds := pass, outcome := .panicUnwrapPipeline }
                  | some update_pipeline =>
                      { cmds := pass ++
                          [.set_pipeline update_pipeline,
                           .dispatch_workgroups (SIZE.1 / WORKGROUP_SIZE)
                             (SIZE.2 / WORKGROUP_SIZE) 1]
                        outcome := .ok }

/-- Number of dispatch commands recorded by one run invocation. -/
def dispatch_count (r : RunResult) : Nat :=
  r.cmds.countP (fun c => c.is_dispatch)

/-- Render-world state the core carries across frames: the pipeline resource,
the bind-group resource (absent until first successfully assembled), and the
node's readiness state. -/
structure RenderWorldState where
  pipeline : MyComputeShaderPipeline
  bind_group_resource : Option BindGroup
  node_state : MyComputeShaderState

/-- Per-frame external inputs: the two resolvable-or-not concrete resources
seen by `queue_bind_group`, the cache statuses polled this frame, the graph
input slot, and the view-offset query. -/
structure FrameInputs where
  view_binding : Option BindingResource
  gpu_image : Option Nat
  poll : FramePoll
  input_view_entity : Option Nat
  view_query : Nat → Option Nat

/-- One frame of the core in the order bevy executes it: the Queue-set system
`queue_bind_group`, then the node's `update`, then its `run` (which reads the
same pipeline cache the update step polled). -/
def frame_step (w : RenderWorldState) (f : FrameInputs) :
    RenderWorldState × RunResult :=
  let bg := queue_bind_group w.pipeline.texture_bind_group_layout
    f.view_binding f.gpu_image w.bind_group_resource
  let s := MyComputeShaderNode.update w.node_state f.poll
  let r := MyComputeShaderNode.run s f.input_view_entity bg f.view_query
    f.poll.update_pipeline_state
  ({ pipeline := w.pipeline, bind_group_resource := bg, node_state := s }, r)

/-- Rank of a readiness state along the Loading -> Init -> Update order; used
to state that the machine never moves backward. -/
def state_rank : MyComputeShaderState → Nat
  | .Loading => 0
  | .Init => 1
  | .Update => 2

/-- Shared concrete poll whose two statuses are both `Ok`, used by witnesses. -/
def pollOkOk : FramePoll :=
  { init_pipeline_state := .Ok 0, update_pipeline_state := .Ok 1 }

/-- Shared concrete bind group used by witnesses. -/
def bg0 : BindGroup :=
  { label := "my_rendertexture_bindgroup"
    layout := bind_group_layout
    entries := [] }

/-! Helper lemmas about the readiness state machine and the run step. -/

/-- Once in `Update`, any further sequence of polls leaves the machine in
`Update`. -/
theorem foldl_update_absorb (polls : List FramePoll) :
    List.foldl MyComputeShaderNode.update .Update polls = .Update := by
  induction polls with
  | nil => rfl
  | cons p rest ih => simpa [MyComputeShaderNode.update] using ih

/-- One update step never decreases the state rank. -/
theorem state_rank_le_update (s : MyComputeShaderState) (p : FramePoll) :
    state_rank s ≤ state_rank (MyComputeShaderNode.update s p) := by
  cases s with
  | Loading =>
      cases h : p.init_pipeline_state <;>
        simp [MyComputeShaderNode.update, h, state_rank]
  | Init =>
      cases h : p.update_pipeline_state <;>
        simp [MyComputeShaderNode.update, h, state_rank]
  | Update => simp [MyComputeShaderNode.update, state_rank]

/-- Folding any poll sequence never decreases the state rank. -/
theorem state_rank_le_foldl (polls : List FramePoll) (s : MyComputeShaderState) :
    state_rank s ≤ state_rank (List.foldl MyComputeShaderNode.update s polls) := by
  induction polls generalizing s with
  | nil => simp
  | cons p rest ih =>
      exact le_trans (state_rank_le_update s p)
        (by simpa using ih (MyComputeShaderNode.update s p))

/-- When the init pipeline polls `Ok`, one step leaves `Loading`. -/
theorem update_ne_loading_of_init_ok (s : MyComputeShaderState) (p : FramePoll)
    (h : p.init_pipeline_state.isOk = true) :
    MyComputeShaderNode.update s p ≠ .Loading := by
  cases s with
  | Loading =>
      cases hip : p.init_pipeline_state with
      | Ok k => simp [MyComputeShaderNode.update, hip]
      | Queued => simp [CachedPipelineState.isOk, hip] at h
      | Err => simp [CachedPipelineState.isOk, hip] at h
  | Init =>
      cases hup : p.update_pipeline_state <;>
        simp [MyComputeShaderNode.update, hup]
  | Update => simp [MyComputeShaderNode.update]

/-- From any state other than `Loading`, a poll whose update status is `Ok`
moves the machine to `Update`. -/
theorem update_eq_update_of_ok (s : MyComputeShaderState) (p : FramePoll)
    (hs : s ≠ .Loading) (h : p.update_pipeline_state.isOk = true) :
    MyComputeShaderNode.update s p = .Update := by
  cases s with
  | Loading => exact absurd rfl hs
  | Init =>
      cases hup : p.update_pipeline_state with
      | Ok k => simp [MyComputeShaderNode.update, hup]
      | Queued => simp [CachedPipelineState.isOk, hup] at h
      | Err => simp [CachedPipelineState.isOk, hup] at h
  | Update => rfl

/-- In a state other than `Update`, the run step records no dispatch command,
whatever the rest of the world looks like. -/
theorem dispatch_count_run_eq_zero (s : MyComputeShaderState)
    (hs : s ≠ .Update) (ie : Option Nat) (bg : Option BindGroup)
    (vq : Nat → Option Nat) (up : CachedPipelineState) :
    dispatch_count (MyComputeShaderNode.run s ie bg vq up) = 0 := by
  cases ie with
  | none => rfl
  | some e =>
      cases bg with
      | none => rfl
      | some b =>
          cases hv : vq e with
          | none =>
              simp [MyComputeShaderNode.run, hv, dispatch_count, Cmd.is_dispatch]
          | some o =>
              cases s with
              | Loading =>
                  simp [MyComputeShaderNode.run, hv, dispatch_count,
                    Cmd.is_dispatch]
              | Init =>
                  simp [MyComputeShaderNode.run, hv, dispatch_count,
                    Cmd.is_dispatch]
              | Update => exact absurd rfl hs

/-- As long as no poll has reported the update pipeline `Ok`, folding from a
state other than `Update` cannot reach `Update`. -/
theorem foldl_update_ne_update (polls : List FramePoll) (s : MyComputeShaderState)
    (hs : s ≠ .Update)
    (hall : ∀ p ∈ polls, p.update_pipeline_state.isOk = false) :
    List.foldl MyComputeShaderNode.update s polls ≠ .Update := by
  induction polls generalizing s with
  | nil => simpa using hs
  | cons p rest ih =>
      have hp := hall p (by simp)
      have hrest : ∀ q ∈ rest, q.update_pipeline_state.isOk = false :=
        fun q hq => hall q (by simp [hq])
      have hstep : MyComputeShaderNode.update s p ≠ .Update := by
        cases s with
        | Loading =>
            cases hip : p.init_pipeline_state <;>
              simp [MyComputeShaderNode.update, hip]
        | Init =>
            cases hup : p.update_pipeline_state with
            | Ok k => simp [CachedPipelineState.isOk, hup] at hp
            | Queued => simp [MyComputeShaderNode.update, hup]
            | Err => simp [MyComputeShaderNode.update, hup]
        | Update => exact absurd rfl hs
      simpa using ih (MyComputeShaderNode.update s p) hstep hrest

/-- Reaching `Update` by folding polls requires either starting there or some
poll whose update status was `Ok`. -/
theorem exists_ok_of_foldl_update (polls : List FramePoll) (s : MyComputeShaderState)
    (h : List.foldl MyComputeShaderNode.update s polls = .Update) :
    s = .Update ∨ ∃ p ∈ polls, p.update_pipeline_state.isOk = true := by
  induction polls generalizing s with
  | nil => exact Or.inl (by simpa using h)
  | cons p rest ih =>
      rcases ih (MyComputeShaderNode.update s p) (by simpa using h) with h1 | h2
      · cases s with
        | Loading =>
            cases hip : p.init_pipeline_state <;>
              simp [MyComputeShaderNode.update, hip] at h1
        | Init =>
            cases hup : p.update_pipeline_state with
            | Ok k =>
                exact Or.inr ⟨p, by simp, by simp [CachedPipelineState.isOk, hup]⟩
            | Queued => simp [MyComputeShaderNode.update, hup] at h1
            | Err => simp [MyComputeShaderNode.update, hup] at h1
        | Update => exact Or.inl rfl
      · obtain ⟨q, hq, hqq⟩ := h2
        exact Or.inr ⟨q, by simp [hq], hqq⟩

/-- When the update pipeline's polled status is `Ok`, no invocation of the run
step ends in the unwrap panic. -/
theorem run_no_unwrap_of_ok (s : MyComputeShaderState) (ie : Option Nat)
    (bg : Option BindGroup) (vq : Nat → Option Nat)
    (up : CachedPipelineState) (h : up.isOk = true) :
    (MyComputeShaderNode.run s ie bg vq up).outcome ≠ .panicUnwrapPipeline := by
  cases up with
  | Queued => simp [CachedPipelineState.isOk] at h
  | Err => simp [CachedPipelineState.isOk] at h
  | Ok k =>
      cases ie with
      | none => simp [MyComputeShaderNode.run]
      | some e =>
          cases bg with
          | none => simp [MyComputeShaderNode.run]
          | some b =>
              cases hv : vq e with
              | none => simp [MyComputeShaderNode.run, hv]
              | some o =>
                  cases s <;>
                    simp [MyComputeShaderNode.run, hv, get_compute_pipeline]

/-! Claim theorems. -/

/-- C1. For every frame whose readiness phase is Loading or Init — that is,
for the state reached from `Loading` by any poll sequence in which the update
pipeline's compile status was never observed `Ok` — the run step of the
Scheduler Node records zero dispatch commands, whatever the input slot, the
bind-group resource, the view query and the cache report that frame. -/
theorem claim1_no_dispatch_before_update_ready (polls : List FramePoll)
    (ie : Option Nat) (bg : Option BindGroup) (vq : Nat → Option Nat)
    (up : CachedPipelineState)
    (hall : ∀ p ∈ polls, p.update_pipeline_state.isOk = false) :
    dispatch_count (MyComputeShaderNode.run
      (List.foldl MyComputeShaderNode.update .Loading polls) ie bg vq up) = 0 :=
  dispatch_count_run_eq_zero _
    (foldl_update_ne_update polls .Loading (by simp) hall) ie bg vq up

/-- Witness for C1 at a concrete frame: one poll with the init pipeline ready
but the update pipeline still queued leaves the node in `Init`, and the run
step records no dispatch even though the cache would by then report `Ok`. -/
theorem claim1_no_dispatch_before_update_ready_inst :
    dispatch_count (MyComputeShaderNode.run
      (List.foldl MyComputeShaderNode.update .Loading
        [{ init_pipeline_state := .Ok 0, update_pipeline_state := .Queued }])
      (some 1) (some bg0) (fun _ => some 0) (.Ok 7)) = 0 :=
  claim1_no_dispatch_before_update_ready _ _ _ _ _ (by decide)

/-- C2. The readiness tracker is a three-state machine stepped once per frame:
from `Loading` it moves to `Init` exactly when the init pipeline's polled
status is `Ok`; from `Init` it moves to `Update` exactly when the update
pipeline's polled status is `Ok`; `Update` is absorbing; and over every poll
sequence (including ones reporting failure after readiness) the state's rank
along Loading -> Init -> Update never decreases. -/
theorem claim2_readiness_state_machine :
    (∀ p : FramePoll, MyComputeShaderNode.update .Loading p =
      if p.init_pipeline_state.isOk then .Init else .Loading)
    ∧ (∀ p : FramePoll, MyComputeShaderNode.update .Init p =
      if p.update_pipeline_state.isOk then .Update else .Init)
    ∧ (∀ p : FramePoll, MyComputeShaderNode.update .Update p = .Update)
    ∧ (∀ (s : MyComputeShaderState) (polls : List FramePoll),
        state_rank s ≤ state_rank (List.foldl MyComputeShaderNode.update s polls)) := by
  refine ⟨?_, ?_, ?_, ?_⟩
  · intro p
    cases h : p.init_pipeline_state <;>
      simp [MyComputeShaderNode.update, h, CachedPipelineState.isOk]
  · intro p
    cases h : p.update_pipeline_state <;>
      simp [MyComputeShaderNode.update, h, CachedPipelineState.isOk]
  · intro p
    rfl
  · intro s polls
    exact state_rank_le_foldl polls s

/-- C5. In every execution in which both pipelines poll `Ok` from some frame
onward — i.e. from any state reached by an arbitrary prefix, fold any poll
sequence of length at least two whose members all report both statuses `Ok` —
the readiness phase reaches `Update` (so within at most two of the per-frame
steps elapsed since both became ready), and `Update` never regresses. -/
theorem claim5_ready_reaches_update :
    (∀ (s : MyComputeShaderState) (polls : List FramePoll),
      2 ≤ polls.length →
      (∀ p ∈ polls, p.init_pipeline_state.isOk = true ∧
        p.update_pipeline_state.isOk = true) →
      List.foldl MyComputeShaderNode.update s polls = .Update)
    ∧ (∀ polls : List FramePoll,
        List.foldl MyComputeShaderNode.update .Update polls = .Update) := by
  constructor
  · intro s polls hlen hall
    cases polls with
    | nil => simp at hlen
    | cons p1 tail =>
        cases tail with
        | nil => simp at hlen
        | cons p2 rest =>
            have h1 := hall p1 (by simp)
            have h2 := hall p2 (by simp)
            have hstep2 : MyComputeShaderNode.update
                (MyComputeShaderNode.update s p1) p2 = .Update :=
              update_eq_update_of_ok _ p2
                (update_ne_loading_of_init_ok s p1 h1.1) h2.2
            calc List.foldl MyComputeShaderNode.update s (p1 :: p2 :: rest)
                = List.foldl MyComputeShaderNode.update
                    (MyComputeShaderNode.update
                      (MyComputeShaderNode.update s p1) p2) rest := by simp
              _ = .Update := by rw [hstep2]; exact foldl_update_absorb rest
  · exact foldl_update_absorb

/-- Witness for C5: from `Loading`, two frames of both-Ok polls reach
`Update`. -/
theorem claim5_ready_reaches_update_inst :
    List.foldl MyComputeShaderNode.update .Loading [pollOkOk, pollOkOk] = .Update :=
  claim5_ready_reaches_update.1 .Loading [pollOkOk, pollOkOk]
    (by decide) (by decide)

/-- C3, counterexample. The claim's general formula
`(ceil(W/g), ceil(H/g), 1)` does not match the code: the dispatch arithmetic
of `MyComputeShaderNode::run` is Rust `u32` (flooring) division, so at target
dimensions 644 x 480 with group size 8 the code computes a grid of
(80, 60, 1) while the claimed formula gives (81, 60, 1). -/
theorem claim3_grid_formula_counterexample :
    dispatch_grid 644 480 8 = (80, 60, 1)
    ∧ spec_ceil_grid 644 480 8 = (81, 60, 1)
    ∧ dispatch_grid 644 480 8 ≠ spec_ceil_grid 644 480 8 := by
  refine ⟨by decide, by decide, by decide⟩

/-- C3, amended. Every dispatch issued by the run step uses the grid
`(W / g, H / g, 1)` with flooring division; for the fixed demo target
640 x 480 with group size 8 this is (80, 60, 1), and the flooring formula
coincides with the spec's ceiling formula exactly on dimensions the group
size divides — as it does for the demo target. -/
theorem claim3_grid_formula_amended :
    (∀ (s : MyComputeShaderState) (ie : Option Nat) (bg : Option BindGroup)
      (vq : Nat → Option Nat) (up : CachedPipelineState) (c : Cmd),
      c ∈ (MyComputeShaderNode.run s ie bg vq up).cmds → c.is_dispatch = true →
      c = .dispatch_workgroups 80 60 1)
    ∧ dispatch_grid SIZE.1 SIZE.2 WORKGROUP_SIZE = (80, 60, 1)
    ∧ (∀ w h g : Nat, 0 < g → g ∣ w → g ∣ h →
        dispatch_grid w h g = spec_ceil_grid w h g) := by
  refine ⟨?_, by decide, ?_⟩
  · intro s ie bg vq up c hc hd
    cases ie with
    | none => simp [MyComputeShaderNode.run] at hc
    | some e =>
        cases bg with
        | none => simp [MyComputeShaderNode.run] at hc
        | some b =>
            cases hv : vq e with
            | none =>
                simp [MyComputeShaderNode.run, hv] at hc
                simp [hc, Cmd.is_dispatch] at hd
            | some o =>
                cases s with
                | Loading =>
                    simp [MyComputeShaderNode.run, hv] at hc
                    rcases hc with hc | hc <;> simp [hc, Cmd.is_dispatch] at hd
                | Init =>
                    simp [MyComputeShaderNode.run, hv] at hc
                    rcases hc with hc | hc <;> simp [hc, Cmd.is_dispatch] at hd
                | Update =>
                    cases hup : get_compute_pipeline up with
                    | none =>
                        simp [MyComputeShaderNode.run, hv, hup] at hc
                        rcases hc with hc | hc <;>
                          simp [hc, Cmd.is_dispatch] at hd
                    | some pl =>
                        simp [MyComputeShaderNode.run, hv, hup] at hc
                        rcases hc with hc | hc | hc | hc
                        · simp [hc, Cmd.is_dispatch] at hd
                        · simp [hc, Cmd.is_dispatch] at hd
                        · simp [hc, Cmd.is_dispatch] at hd
                        · rw [hc]
                          decide
  · intro w h g hg hw hh
    obtain ⟨a, rfl⟩ := hw
    obtain ⟨b, rfl⟩ := hh
    have ea : g * a / g = a := Nat.mul_div_cancel_left a hg
    have eb : g * b / g = b := Nat.mul_div_cancel_left b hg
    have ca : (g * a + g - 1) / g = a := by
      have hs : g * a + g - 1 = g - 1 + g * a := by
        rw [Nat.add_sub_assoc hg, Nat.add_comm]
      rw [hs, Nat.add_mul_div_left _ _ hg,
        Nat.div_eq_of_lt (Nat.sub_lt hg Nat.one_pos), Nat.zero_add]
    have cb : (g * b + g - 1) / g = b := by
      have hs : g * b + g - 1 = g - 1 + g * b := by
        rw [Nat.add_sub_assoc hg, Nat.add_comm]
      rw [hs, Nat.add_mul_div_left _ _ hg,
        Nat.div_eq_of_lt (Nat.sub_lt hg Nat.one_pos), Nat.zero_add]
    simp [dispatch_grid, spec_ceil_grid, ea, eb, ca, cb]

/-- Witness for C3 (amended): the run step in `Update` with everything
resolved does record a dispatch, and the theorem pins it to (80, 60, 1); the
divisibility conjunct applied at the demo dimensions makes the flooring and
ceiling grids agree there. -/
theorem claim3_grid_formula_amended_inst :
    Cmd.dispatch_workgroups 80 60 1 = Cmd.dispatch_workgroups 80 60 1
    ∧ dispatch_grid 640 480 8 = spec_ceil_grid 640 480 8 := by
  refine ⟨claim3_grid_formula_amended.1 .Update (some 0) (some bg0)
    (fun _ => some 0) (.Ok 3) (.dispatch_workgroups 80 60 1)
    (by decide) (by decide), ?_⟩
  exact claim3_grid_formula_amended.2.2 640 480 8 (by decide) (by decide)
    (by decide)

/-- C4, counterexample. In a frame whose render-target GPU view is
unresolvable and in which no earlier frame ever assembled a bound set, the
bind-group assembly indeed produces nothing — but the run step then panics
(bevy's `world.resource::<MyComputeShaderBindGroup>()` on an absent
resource) instead of issuing zero dispatches without crashing. -/
theorem claim4_missing_view_counterexample :
    queue_bind_group bind_group_layout (some (.Buffer 0)) none none = none
    ∧ MyComputeShaderNode.run .Loading (some 0) none (fun _ => none) .Queued
      = { cmds := [], outcome := .panicMissingBindGroup } :=
  ⟨rfl, rfl⟩

/-- C4, amended. For every frame in which the render-target GPU view or the
view uniform binding is unresolvable, the bind-group assembly step inserts no
new bound resource set (the resource keeps its previous value, absent until a
first successful assembly); the run step does not consult resolvability: when
its input slot is supplied and the bound-set resource is absent it panics,
recording no commands at all (hence zero dispatches), rather than skipping
the frame gracefully. -/
theorem claim4_missing_view_amended :
    (∀ (L : BindGroupLayoutDescriptor) (gi : Option Nat)
      (prev : Option BindGroup), queue_bind_group L none gi prev = prev)
    ∧ (∀ (L : BindGroupLayoutDescriptor) (vb : Option BindingResource)
      (prev : Option BindGroup), queue_bind_group L vb none prev = prev)
    ∧ (∀ (s : MyComputeShaderState) (e : Nat) (vq : Nat → Option Nat)
      (up : CachedPipelineState),
      MyComputeShaderNode.run s (some e) none vq up
        = { cmds := [], outcome := .panicMissingBindGroup }) := by
  refine ⟨?_, ?_, ?_⟩
  · intro L gi prev
    rfl
  · intro L vb prev
    cases vb <;> rfl
  · intro s e vq up
    rfl

/-- C6, counterexample. In a frame where the view entity supplied through the
input slot is unresolvable (the view query returns nothing) but the bound-set
resource is absent, the run step panics on the resource fetch — which
precedes the view lookup — instead of returning early without panicking. -/
theorem claim6_missing_slot_counterexample :
    MyComputeShaderNode.run .Update (some 5) none (fun _ => none) (.Ok 0)
      = { cmds := [], outcome := .panicMissingBindGroup } :=
  rfl

/-- C6, amended. When the required view-entity input slot is absent, the run
step returns early with the node-run error, recording no commands (hence
zero dispatches) and not panicking; when the slot is supplied but the view
entity is unresolvable, the run step returns normally right after beginning
the pass, again dispatching nothing — provided the bound-set resource is
present, since its absence makes the run step panic before the view
lookup. -/
theorem claim6_missing_slot_amended :
    (∀ (s : MyComputeShaderState) (bg : Option BindGroup)
      (vq : Nat → Option Nat) (up : CachedPipelineState),
      MyComputeShaderNode.run s none bg vq up
        = { cmds := [], outcome := .nodeRunError })
    ∧ (∀ (s : MyComputeShaderState) (e : Nat) (bg : BindGroup)
      (vq : Nat → Option Nat) (up : CachedPipelineState), vq e = none →
      MyComputeShaderNode.run s (some e) (some bg) vq up
        = { cmds := [.begin_compute_pass], outcome := .ok }) := by
  constructor
  · intro s bg vq up
    rfl
  · intro s e bg vq up hv
    simp [MyComputeShaderNode.run, hv]

/-- Witness for C6 (amended): a concrete frame whose view query resolves no
entity makes the run step return normally after only beginning the pass. -/
theorem claim6_missing_slot_amended_inst :
    MyComputeShaderNode.run .Update (some 0) (some bg0) (fun _ => none) (.Ok 2)
      = { cmds := [.begin_compute_pass], outcome := .ok } :=
  claim6_missing_slot_amended.2 .Update 0 bg0 (fun _ => none) (.Ok 2) rfl

/-- C7. Registration submits exactly two compile requests to the pipeline
cache — first entry point "init", then "update", both referencing the same
shader handle and the same binding layout — and returns at once with the two
opaque ids (the requests' cache indices); being a total function of the cache
and the shader handle, it never fails synchronously. -/
theorem claim7_registration_two_requests (cache : PipelineCache) (shader : Nat) :
    (MyComputeShaderPipeline.from_world cache shader).2.queued
      = cache.queued
        ++ [init_pipeline_descriptor shader, update_pipeline_descriptor shader]
    ∧ (init_pipeline_descriptor shader).entry_point = "init"
    ∧ (update_pipeline_descriptor shader).entry_point = "update"
    ∧ (init_pipeline_descriptor shader).shader = shader
    ∧ (update_pipeline_descriptor shader).shader = shader
    ∧ (init_pipeline_descriptor shader).layout
      = (update_pipeline_descriptor shader).layout
    ∧ (MyComputeShaderPipeline.from_world cache shader).1.init_pipeline_id
      = cache.queued.length
    ∧ (MyComputeShaderPipeline.from_world cache shader).1.update_pipeline_id
      = cache.queued.length + 1 := by
  refine ⟨?_, rfl, rfl, rfl, rfl, rfl, rfl, ?_⟩
  · simp [MyComputeShaderPipeline.from_world, PipelineCache.queue_compute_pipeline]
  · simp [MyComputeShaderPipeline.from_world, PipelineCache.queue_compute_pipeline]

/-- C8. Bind-group assembly is deterministic and idempotent in its inputs:
reapplying the step with the same concrete resources leaves the bound-set
resource fixed (so any number of repetitions yields the same set), and when
both concrete resources resolve, the result is independent of whatever
resource value earlier frames left behind — no hidden frame-to-frame
state. -/
theorem claim8_assembly_idempotent :
    (∀ (L : BindGroupLayoutDescriptor) (vb : Option BindingResource)
      (gi : Option Nat) (prev : Option BindGroup),
      queue_bind_group L vb gi (queue_bind_group L vb gi prev)
        = queue_bind_group L vb gi prev)
    ∧ (∀ (L : BindGroupLayoutDescriptor) (vb : Option BindingResource)
      (gi : Option Nat) (prev : Option BindGroup) (n : Nat),
      (fun st => queue_bind_group L vb gi st)^[n]
        (queue_bind_group L vb gi prev) = queue_bind_group L vb gi prev)
    ∧ (∀ (L : BindGroupLayoutDescriptor) (vb : BindingResource) (tv : Nat)
      (prev1 prev2 : Option BindGroup),
      queue_bind_group L (some vb) (some tv) prev1
        = queue_bind_group L (some vb) (some tv) prev2) := by
  have idem : ∀ (L : BindGroupLayoutDescriptor) (vb : Option BindingResource)
      (gi : Option Nat) (prev : Option BindGroup),
      queue_bind_group L vb gi (queue_bind_group L vb gi prev)
        = queue_bind_group L vb gi prev := by
    intro L vb gi prev
    cases vb with
    | none => rfl
    | some v => cases gi <;> rfl
  refine ⟨idem, ?_, ?_⟩
  · intro L vb gi prev n
    induction n with
    | zero => rfl
    | succ m ih =>
        rw [Function.iterate_succ_apply, idem]
        exact ih
  · intro L vb tv prev1 prev2
    rfl

/-- C9. The binding layout is the single declaration `bind_group_layout`,
made before either compile request (both requests carry it), with exactly two
compute-visible slots: binding 0 a uniform buffer, binding 1 a read-write 2-D
`Rgba8Unorm` storage texture; the pipeline resource stores it and a whole
frame step leaves the pipeline resource (hence the layout) unchanged; and
whenever the assembler produces a bound set it binds exactly one concrete
resource per slot, matched to the layout by binding index 0 and 1. -/
theorem claim9_layout_invariant :
    bind_group_layout.entries = [view_layout, texture_layout]
    ∧ view_layout.binding = 0
    ∧ view_layout.visibility = .COMPUTE
    ∧ view_layout.ty = .Buffer .Uniform true (some .viewUniformMinSize)
    ∧ texture_layout.binding = 1
    ∧ texture_layout.visibility = .COMPUTE
    ∧ texture_layout.ty = .StorageTexture .ReadWrite .Rgba8Unorm .D2
    ∧ (∀ shader : Nat,
        (init_pipeline_descriptor shader).layout = [bind_group_layout]
        ∧ (update_pipeline_descriptor shader).layout = [bind_group_layout])
    ∧ (∀ (cache : PipelineCache) (shader : Nat),
        (MyComputeShaderPipeline.from_world cache shader).1.texture_bind_group_layout
          = bind_group_layout)
    ∧ (∀ (w : RenderWorldState) (f : FrameInputs),
        (frame_step w f).1.pipeline = w.pipeline)
    ∧ (∀ (vb : BindingResource) (tv : Nat) (prev : Option BindGroup),
        queue_bind_group bind_group_layout (some vb) (some tv) prev
          = some { label := "my_rendertexture_bindgroup", layout := bind_group_layout, entries := [{ binding := 0, resource := vb }, { binding := 1, resource := .TextureView tv }] })
    ∧ List.map BindGroupLayoutEntry.binding bind_group_layout.entries = [0, 1] :=
  ⟨rfl, rfl, rfl, rfl, rfl, rfl, rfl, fun _ => ⟨rfl, rfl⟩, fun _ _ => rfl,
    fun _ _ => rfl, fun _ _ _ => rfl, rfl⟩

/-- C10. Whenever the readiness phase is `Update`, some earlier per-frame
update step observed the update pipeline's status `Ok`; hence, assuming the
pipeline cache never moves a status away from `Ok` (the monotonicity
hypothesis over the per-frame statuses), the `.unwrap()` branch that fetches
the compiled update pipeline in the `Update` arm of the run step cannot
panic, whatever the input slot, bind-group resource and view query are. -/
theorem claim10_update_unwrap_unreachable (statuses : Nat → FramePoll) (n : Nat)
    (hmono : ∀ i j : Nat, i ≤ j →
      (statuses i).update_pipeline_state.isOk = true →
      (statuses j).update_pipeline_state.isOk = true) :
    (∀ polls : List FramePoll,
      List.foldl MyComputeShaderNode.update .Loading polls = .Update →
      ∃ p ∈ polls, p.update_pipeline_state.isOk = true)
    ∧ (List.foldl MyComputeShaderNode.update .Loading
        ((List.range (n + 1)).map statuses) = .Update →
      ∀ (ie : Option Nat) (bg : Option BindGroup) (vq : Nat → Option Nat),
        (MyComputeShaderNode.run
          (List.foldl MyComputeShaderNode.update .Loading
            ((List.range (n + 1)).map statuses)) ie bg vq
          (statuses n).update_pipeline_state).outcome
          ≠ .panicUnwrapPipeline) := by
  constructor
  · intro polls h
    rcases exists_ok_of_foldl_update polls .Loading h with h1 | h2
    · exact absurd h1 (by simp)
    · exact h2
  · intro h ie bg vq
    rcases exists_ok_of_foldl_update _ .Loading h with h1 | h2
    · exact absurd h1 (by simp)
    · obtain ⟨p, hp, hpok⟩ := h2
      obtain ⟨i, hi, rfl⟩ := List.mem_map.1 hp
      have hin : i ≤ n := Nat.lt_succ_iff.1 (List.mem_range.1 hi)
      exact run_no_unwrap_of_ok _ ie bg vq _ (hmono i n hin hpok)

/-- Witness for C10: with both statuses constantly `Ok`, two frames reach
`Update`, and the run step at the concrete world does not hit the unwrap
panic. -/
theorem claim10_update_unwrap_unreachable_inst :
    (MyComputeShaderNode.run
      (List.foldl MyComputeShaderNode.update .Loading
        ((List.range 2).map (fun _ => pollOkOk)))
      (some 0) (some bg0) (fun _ => some 0)
      pollOkOk.update_pipeline_state).outcome ≠ .panicUnwrapPipeline :=
  (claim10_update_unwrap_unreachable (fun _ => pollOkOk) 1
    (fun _ _ _ hok => hok)).2 (by decide) (some 0) (some bg0) (fun _ => some 0)

end BevyPlayground
